import Mathlib

/-!
Shallow embedding of the PingPong operator (`src/pingpong-operator/app/operator.py`)
and the peer-mesh workload (`src/pingpong-server/server/main.py`).

The operator's three kopf handlers (`create_fn`, `update_fn`, `delete_fn`) are
embedded as explicit state-passing functions over a `Cluster` value that models
the object store of one namespace of the cluster API server: one association
list per dependent-object kind, keyed by object name.  The cluster API server
itself is an external collaborator of the repository (spec section 1/2,
"ResourceClient"); its create/patch/delete semantics and its error statuses
(409 AlreadyExists, 404 NotFound, raised as `ApiException e` with
`e.status : Nat`) are modelled by the `apiCreate` / `apiPatch` / `apiDelete`
functions below.  Each API call additionally takes an optional injected fault
(`Option Nat`): `some s` makes the call raise an `ApiException` with status
`s` instead of performing the ideal operation, so that the handlers' own
try/except policy can be examined under arbitrary API failures.

Python's `None` for the optional custom-resource spec fields is modelled by
`Option`; `f"...{x}..."` formatting of a possibly-`None` integer is `pyShow`.
-/

abbrev Labels := List (String × String)

/-- `CONTAINER_PORT = 80` in the source. -/
def CONTAINER_PORT : Nat := 80

/-- `CONFIG_KEY = "config.yaml"` in the source. -/
def CONFIG_KEY : String := "config.yaml"

/-- `MOUNT_PATH = "/var/server"` in the source. -/
def MOUNT_PATH : String := "/var/server"

/-- Object metadata: `V1ObjectMeta(name=..., namespace=..., labels=...)`.
The pod template's metadata sets only `labels`, so name and namespace are
optional. -/
structure V1ObjectMeta where
  name : Option String
  ns : Option String
  labels : Labels
deriving Repr, DecidableEq

structure V1ServicePort where
  port : Nat
  targetPort : Nat
  protocol : String
deriving Repr, DecidableEq

structure V1ServiceSpec where
  cluster_ip : String
  selector : Labels
  ports : List V1ServicePort
deriving Repr, DecidableEq

structure V1Service where
  metadata : V1ObjectMeta
  spec : V1ServiceSpec
deriving Repr, DecidableEq

structure V1ConfigMap where
  metadata : V1ObjectMeta
  data : List (String × String)
deriving Repr, DecidableEq

structure V1EnvVar where
  name : String
  value : String
deriving Repr, DecidableEq

structure V1ContainerPort where
  container_port : Nat
deriving Repr, DecidableEq

structure V1VolumeMount where
  name : String
  mount_path : String
  read_only : Bool
deriving Repr, DecidableEq

structure V1ResourceRequirements where
  requests : List (String × String)
  limits : List (String × String)
deriving Repr, DecidableEq

structure V1Container where
  name : String
  image : Option String
  env : List V1EnvVar
  ports : List V1ContainerPort
  volume_mounts : List V1VolumeMount
  resources : V1ResourceRequirements
deriving Repr, DecidableEq

structure V1KeyToPath where
  key : String
  path : String
deriving Repr, DecidableEq

structure V1ConfigMapVolumeSource where
  name : String
  items : List V1KeyToPath
deriving Repr, DecidableEq

structure V1Volume where
  name : String
  config_map : V1ConfigMapVolumeSource
deriving Repr, DecidableEq

structure V1PodSpec where
  containers : List V1Container
  volumes : List V1Volume
deriving Repr, DecidableEq

structure V1PodTemplateSpec where
  metadata : V1ObjectMeta
  spec : V1PodSpec
deriving Repr, DecidableEq

structure V1LabelSelector where
  match_labels : Labels
deriving Repr, DecidableEq

structure V1StatefulSetSpec where
  service_name : String
  replicas : Option Int
  selector : V1LabelSelector
  template : V1PodTemplateSpec
deriving Repr, DecidableEq

structure V1StatefulSet where
  metadata : V1ObjectMeta
  spec : V1StatefulSetSpec
deriving Repr, DecidableEq

/-- The custom resource's spec dictionary as the handlers read it:
`spec.get("replicas")`, `spec.get("timer")`, `spec.get("image")`,
each possibly absent. -/
structure CRSpec where
  replicas : Option Int
  timer : Option Int
  image : Option String
deriving Repr, DecidableEq

/-- Python f-string rendering of a possibly-`None` integer value. -/
def pyShow : Option Int → String
  | none => "None"
  | some n => toString n

/-- `configmap_manifest(name, namespace, replicas, timer, labels)`. -/
def configmap_manifest (name ns : String) (replicas timer : Int) (labels : Labels) :
    V1ConfigMap :=
  { metadata := { name := some name, ns := some ns, labels := labels }
    data := [(CONFIG_KEY, "replicas: " ++ toString replicas ++ "\ntimer: " ++
      toString timer ++ "\n")] }

/-- `service_manifest(name, namespace, labels)`. -/
def service_manifest (name ns : String) (labels : Labels) : V1Service :=
  { metadata := { name := some name, ns := some ns, labels := labels }
    spec :=
      { cluster_ip := "None"
        selector := labels
        ports := [{ port := CONTAINER_PORT, targetPort := CONTAINER_PORT,
                    protocol := "TCP" }] } }

/-- `statefulset_manifest(name, service_name, configmap_name, namespace, labels, replicas, image)`. -/
def statefulset_manifest (name service_name configmap_name ns : String)
    (labels : Labels) (replicas : Int) (image : String) : V1StatefulSet :=
  let container : V1Container :=
    { name := "main"
      image := some image
      env := [{ name := "HEADLESS_SERVICE", value := service_name }]
      ports := [{ container_port := CONTAINER_PORT }]
      volume_mounts := [{ name := "config-volume", mount_path := MOUNT_PATH,
                          read_only := true }]
      resources :=
        { requests := [("cpu", "100m"), ("memory", "64Mi")]
          limits := [("cpu", "100m"), ("memory", "64Mi")] } }
  let volumes : List V1Volume :=
    [{ name := "config-volume"
       config_map := { name := configmap_name
                       items := [{ key := CONFIG_KEY, path := CONFIG_KEY }] } }]
  let pod_template : V1PodTemplateSpec :=
    { metadata := { name := none, ns := none, labels := labels }
      spec := { containers := [container], volumes := volumes } }
  { metadata := { name := some name, ns := some ns, labels := labels }
    spec :=
      { service_name := service_name
        replicas := some replicas
        selector := { match_labels := labels }
        template := pod_template } }

/-- Name-keyed object store for one kind in one namespace. -/
abbrev Store (α : Type) := List (String × α)

/-- Look an object up by name. -/
def lookupObj {α : Type} : Store α → String → Option α
  | [], _ => none
  | (k, v) :: rest, n => if k = n then some v else lookupObj rest n

/-- Remove the object of a given name (the API server's delete). -/
def removeObj {α : Type} : Store α → String → Store α
  | [], _ => []
  | (k, v) :: rest, n =>
    if k = n then removeObj rest n else (k, v) :: removeObj rest n

/-- Replace the object of a given name in place by applying `f` to it. -/
def patchObj {α : Type} : Store α → String → (α → α) → Store α
  | [], _, _ => []
  | (k, v) :: rest, n, f =>
    if k = n then (k, f v) :: patchObj rest n f else (k, v) :: patchObj rest n f

/-- Modelled from the spec: the external cluster API's `create` for one object
(spec section 2, ResourceClient).  With no injected fault it creates the object
if its name is free and raises status 409 (AlreadyExists) otherwise; an
injected fault `some s` raises status `s` instead. -/
def apiCreate {α : Type} (store : Store α) (n : String) (obj : α)
    (fault : Option Nat) : Except Nat (Store α) :=
  match fault with
  | some s => .error s
  | none =>
    match lookupObj store n with
    | some _ => .error 409
    | none => .ok ((n, obj) :: store)

/-- One `try: create... except ApiException: if e.status == 409: pass else: raise`
block of `create_fn`. -/
def createStep {α : Type} (store : Store α) (n : String) (obj : α)
    (fault : Option Nat) : Except Nat (Store α) :=
  match apiCreate store n obj fault with
  | .ok s => .ok s
  | .error e => if e = 409 then .ok store else .error e

/-- Modelled from the spec: the external cluster API's `patch` for one object.
With no injected fault it applies the patch if the object exists and raises
status 404 (NotFound) otherwise; an injected fault `some s` raises status `s`. -/
def apiPatch {α : Type} (store : Store α) (n : String) (f : α → α)
    (fault : Option Nat) : Except Nat (Store α) :=
  match fault with
  | some s => .error s
  | none =>
    match lookupObj store n with
    | some _ => .ok (patchObj store n f)
    | none => .error 404

/-- One `try: patch... except ApiException: logging.error(...)` block of
`update_fn`: every `ApiException` is caught and only recorded. -/
def patchStep {α : Type} (store : Store α) (n : String) (f : α → α)
    (fault : Option Nat) : Store α × List Nat :=
  match apiPatch store n f fault with
  | .ok s => (s, [])
  | .error e => (store, [e])

/-- Modelled from the spec: the external cluster API's `delete` for one object.
With no injected fault it removes the object if it exists and raises status
404 (NotFound) otherwise; an injected fault `some s` raises status `s`. -/
def apiDelete {α : Type} (store : Store α) (n : String) (fault : Option Nat) :
    Except Nat (Store α) :=
  match fault with
  | some s => .error s
  | none =>
    match lookupObj store n with
    | some _ => .ok (removeObj store n)
    | none => .error 404

/-- One iteration of the delete loop of `delete_fn`:
`except ApiException: if e.status == 404: log "already deleted" else: log error`.
Non-404 statuses are recorded (logged), never re-raised. -/
def deleteStep {α : Type} (store : Store α) (n : String) (fault : Option Nat) :
    Store α × List Nat :=
  match apiDelete store n fault with
  | .ok s => (s, [])
  | .error e => if e = 404 then (store, []) else (store, [e])

/-- The object store of one namespace, restricted to the three dependent kinds
the operator manages. -/
structure Cluster where
  services : Store V1Service
  configMaps : Store V1ConfigMap
  statefulSets : Store V1StatefulSet
deriving Repr, DecidableEq

def emptyCluster : Cluster :=
  { services := [], configMaps := [], statefulSets := [] }

/-- The dictionary `create_fn` returns:
`{"svc_name": ..., "sts_name": ..., "cm_name": ...}`. -/
structure CreateResult where
  svc_name : String
  sts_name : String
  cm_name : String
deriving Repr, DecidableEq

/-- `create_fn(spec, name, namespace, ...)`.  Returns the cluster state after
however many API calls were performed, together with either the raised
`ApiException` status (`Except.error`) or the returned names dictionary.
Mutations made before a raising call persist, as they do against a real
API server. -/
def create_fn (spec : CRSpec) (name ns : String) (c : Cluster)
    (fsvc fcm fsts : Option Nat) : Cluster × Except Nat CreateResult :=
  let replicas : Int := spec.replicas.getD 1
  let timer : Int := spec.timer.getD 30
  let image : String := spec.image.getD "6y6en/ping-pong:latest"
  let svc_name := name ++ "-svc"
  let sts_name := name ++ "-sts"
  let cm_name := name ++ "-cm"
  let labels : Labels := [("app", name)]
  match createStep c.services svc_name (service_manifest svc_name ns labels) fsvc with
  | .error e => (c, .error e)
  | .ok svcs =>
    let c1 : Cluster := { c with services := svcs }
    match createStep c1.configMaps cm_name
        (configmap_manifest cm_name ns replicas timer labels) fcm with
    | .error e => (c1, .error e)
    | .ok cms =>
      let c2 : Cluster := { c1 with configMaps := cms }
      match createStep c2.statefulSets sts_name
          (statefulset_manifest sts_name svc_name cm_name ns labels replicas image)
          fsts with
      | .error e => (c2, .error e)
      | .ok stss =>
        ({ c2 with statefulSets := stss },
         .ok { svc_name := svc_name, sts_name := sts_name, cm_name := cm_name })

/-- The `ss_body` dictionary `update_fn` sends:
`{"spec": {"replicas": replicas, "template": {"spec": {"containers":
[{"name": "main", "image": image}]}}}}`; a `None` field is serialized as
JSON `null`. -/
structure StsPatchBody where
  replicas : Option Int
  image : Option String
deriving Repr, DecidableEq

/-- Modelled from the spec: the external cluster API's merge-patch application
of `ss_body` to a stored StatefulSet — `replicas` is set to the body's value
(`null` clears it), and the container named `"main"` gets the body's `image`
(`null` clears it). -/
def applyStsPatch (b : StsPatchBody) (s : V1StatefulSet) : V1StatefulSet :=
  { s with spec :=
    { s.spec with
      replicas := b.replicas
      template :=
      { s.spec.template with spec :=
        { s.spec.template.spec with
          containers := s.spec.template.spec.containers.map (fun cont =>
            if cont.name = "main" then { cont with image := b.image } else cont) } } } }

/-- Set one key of a string map, as the API server merges the
`{"data": {CONFIG_KEY: cm_data}}` patch body into a ConfigMap's data. -/
def setEntry (m : List (String × String)) (k v : String) : List (String × String) :=
  match lookupObj m k with
  | some _ => patchObj m k (fun _ => v)
  | none => (k, v) :: m

/-- Modelled from the spec: the external cluster API's merge-patch application
of `cm_body = {"data": {CONFIG_KEY: cm_data}}` to a stored ConfigMap. -/
def applyCmPatch (cm_data : String) (cm : V1ConfigMap) : V1ConfigMap :=
  { cm with data := setEntry cm.data CONFIG_KEY cm_data }

/-- `update_fn(spec, name, namespace, diff, ...)`.  Patches the StatefulSet,
then the ConfigMap; each patch is wrapped in its own try/except that catches
every `ApiException` and only logs it, so the handler itself never raises:
the `Except` component records what the handler would propagate, and the
`List Nat` component records the logged error statuses in order. -/
def update_fn (spec : CRSpec) (name ns : String) (c : Cluster)
    (fsts fcm : Option Nat) : Cluster × Except Nat Unit × List Nat :=
  let image := spec.image
  let replicas := spec.replicas
  let timer := spec.timer
  let sts_name := name ++ "-sts"
  let cm_name := name ++ "-cm"
  let ss_body : StsPatchBody := { replicas := replicas, image := image }
  let r1 := patchStep c.statefulSets sts_name (applyStsPatch ss_body) fsts
  let c1 : Cluster := { c with statefulSets := r1.1 }
  let cm_data := "replicas: " ++ pyShow replicas ++ "\ntimer: " ++ pyShow timer ++ "\n"
  let r2 := patchStep c1.configMaps cm_name (applyCmPatch cm_data) fcm
  ({ c1 with configMaps := r2.1 }, .ok (), r1.2 ++ r2.2)

/-- `delete_fn(spec, name, namespace, ...)`.  Attempts to delete the Service,
the StatefulSet and the ConfigMap in that order; 404 is absorbed, any other
`ApiException` is logged (recorded in the `List Nat`) and never re-raised,
so the `Except` component is always `.ok`. -/
def delete_fn (name ns : String) (c : Cluster) (fsvc fsts fcm : Option Nat) :
    Cluster × Except Nat Unit × List Nat :=
  let svc_name := name ++ "-svc"
  let sts_name := name ++ "-sts"
  let cm_name := name ++ "-cm"
  let r1 := deleteStep c.services svc_name fsvc
  let r2 := deleteStep c.statefulSets sts_name fsts
  let r3 := deleteStep c.configMaps cm_name fcm
  ({ services := r1.1, configMaps := r3.1, statefulSets := r2.1 },
   .ok (), r1.2 ++ r2.2 ++ r3.2)

/-- The peer ordinals one pass of `ping_loop` in
`src/pingpong-server/server/main.py` targets:
`for i in range(0, replicas): if i == pod_number: continue; ...ping i`.
`replicas` comes from the loaded config (an integer; `range` of a negative
bound is empty), `podNumber` is the pod's own ordinal parsed from its
hostname. -/
def pingTargets (replicas : Int) (podNumber : Nat) : List Nat :=
  (List.range replicas.toNat).filter (fun i => i ≠ podNumber)

/-! ### Store lemmas -/

theorem lookupObj_cons_self {α : Type} (k : String) (v : α) (s : Store α) :
    lookupObj ((k, v) :: s) k = some v := by
  simp [lookupObj]

theorem lookupObj_cons_ne {α : Type} (k n : String) (v : α) (s : Store α)
    (h : k ≠ n) : lookupObj ((k, v) :: s) n = lookupObj s n := by
  simp [lookupObj, h]

theorem lookupObj_removeObj_self {α : Type} (s : Store α) (n : String) :
    lookupObj (removeObj s n) n = none := by
  induction s with
  | nil => rfl
  | cons kv rest ih =>
    obtain ⟨a, b⟩ := kv
    by_cases h : a = n
    · simpa [removeObj, h] using ih
    · simpa [removeObj, h, lookupObj] using ih

theorem lookupObj_removeObj_ne {α : Type} (s : Store α) (n k : String)
    (h : k ≠ n) : lookupObj (removeObj s n) k = lookupObj s k := by
  induction s with
  | nil => rfl
  | cons kv rest ih =>
    obtain ⟨a, b⟩ := kv
    by_cases h1 : a = n
    · subst h1
      have h2 : ¬(a = k) := fun hc => h hc.symm
      simpa [removeObj, lookupObj, h2] using ih
    · by_cases h2 : a = k
      · subst h2
        simp [removeObj, h1, lookupObj]
      · simpa [removeObj, h1, lookupObj, h2] using ih

theorem removeObj_of_lookup_none {α : Type} (s : Store α) (n : String)
    (h : lookupObj s n = none) : removeObj s n = s := by
  induction s with
  | nil => rfl
  | cons kv rest ih =>
    obtain ⟨a, b⟩ := kv
    simp [lookupObj] at h
    by_cases h1 : a = n
    · simp [h1] at h
    · simp [removeObj, h1]
      exact ih (by simpa [h1] using h)

theorem removeObj_removeObj {α : Type} (s : Store α) (n : String) :
    removeObj (removeObj s n) n = removeObj s n := by
  induction s with
  | nil => rfl
  | cons kv rest ih =>
    obtain ⟨a, b⟩ := kv
    by_cases h : a = n
    · simpa [removeObj, h] using ih
    · simpa [removeObj, h] using ih

theorem lookupObj_patchObj_self {α : Type} (s : Store α) (n : String) (f : α → α) :
    lookupObj (patchObj s n f) n = (lookupObj s n).map f := by
  induction s with
  | nil => rfl
  | cons kv rest ih =>
    obtain ⟨a, b⟩ := kv
    by_cases h : a = n
    · simp [patchObj, lookupObj, h]
    · simpa [patchObj, lookupObj, h] using ih

theorem lookupObj_patchObj_ne {α : Type} (s : Store α) (n k : String) (f : α → α)
    (h : k ≠ n) : lookupObj (patchObj s n f) k = lookupObj s k := by
  induction s with
  | nil => rfl
  | cons kv rest ih =>
    obtain ⟨a, b⟩ := kv
    by_cases h1 : a = n
    · subst h1
      have h2 : ¬(a = k) := fun hc => h hc.symm
      simpa [patchObj, lookupObj, h2] using ih
    · by_cases h2 : a = k
      · subst h2
        simp [patchObj, lookupObj, h1]
      · simpa [patchObj, lookupObj, h1, h2] using ih

/-! ### Step characterizations -/

theorem createStep_none {α : Type} (s : Store α) (n : String) (o : α) :
    createStep s n o none =
      .ok (match lookupObj s n with
           | some _ => s
           | none => (n, o) :: s) := by
  cases h : lookupObj s n <;> simp [createStep, apiCreate, h]

theorem createStep_some {α : Type} (s : Store α) (n : String) (o : α) (e : Nat) :
    createStep s n o (some e) = if e = 409 then .ok s else .error e := by
  simp [createStep, apiCreate]

theorem patchStep_none {α : Type} (s : Store α) (n : String) (f : α → α) :
    patchStep s n f none =
      (match lookupObj s n with
       | some _ => (patchObj s n f, [])
       | none => (s, [404])) := by
  cases h : lookupObj s n <;> simp [patchStep, apiPatch, h]

theorem patchStep_some {α : Type} (s : Store α) (n : String) (f : α → α) (e : Nat) :
    patchStep s n f (some e) = (s, [e]) := by
  simp [patchStep, apiPatch]

theorem deleteStep_none {α : Type} (s : Store α) (n : String) :
    deleteStep s n none = (removeObj s n, []) := by
  cases h : lookupObj s n with
  | none => simp [deleteStep, apiDelete, h, removeObj_of_lookup_none s n h]
  | some v => simp [deleteStep, apiDelete, h]

theorem deleteStep_some {α : Type} (s : Store α) (n : String) (e : Nat) :
    deleteStep s n (some e) = if e = 404 then (s, []) else (s, [e]) := by
  simp [deleteStep, apiDelete]

/-- Full characterization of `create_fn` with no injected API faults: each of
the three create calls succeeds, either by inserting the freshly built
manifest (name free) or by absorbing the API's 409 AlreadyExists
(name taken), and the handler returns the derived-names dictionary. -/
theorem create_fn_none_eq (spec : CRSpec) (name ns : String) (c : Cluster) :
    create_fn spec name ns c none none none =
      ({ services :=
           match lookupObj c.services (name ++ "-svc") with
           | some _ => c.services
           | none => (name ++ "-svc",
               service_manifest (name ++ "-svc") ns [("app", name)]) :: c.services,
         configMaps :=
           match lookupObj c.configMaps (name ++ "-cm") with
           | some _ => c.configMaps
           | none => (name ++ "-cm",
               configmap_manifest (name ++ "-cm") ns (spec.replicas.getD 1)
                 (spec.timer.getD 30) [("app", name)]) :: c.configMaps,
         statefulSets :=
           match lookupObj c.statefulSets (name ++ "-sts") with
           | some _ => c.statefulSets
           | none => (name ++ "-sts",
               statefulset_manifest (name ++ "-sts") (name ++ "-svc") (name ++ "-cm")
                 ns [("app", name)] (spec.replicas.getD 1)
                 (spec.image.getD "6y6en/ping-pong:latest")) :: c.statefulSets },
       .ok { svc_name := name ++ "-svc", sts_name := name ++ "-sts",
             cm_name := name ++ "-cm" }) := by
  cases h1 : lookupObj c.services (name ++ "-svc") <;>
  cases h2 : lookupObj c.configMaps (name ++ "-cm") <;>
  cases h3 : lookupObj c.statefulSets (name ++ "-sts") <;>
  simp [create_fn, createStep_none, h1, h2, h3]

/-! ### Claim theorems -/

/-- C1: Invoking the Create handler twice against the same cluster state
produces exactly one Service, one ConfigObject and one ReplicaSet and the
second invocation surfaces no error; more generally, with any subset of the
three dependent objects already present, `create_fn` creates exactly the
missing ones, leaves the existing ones untouched (their 409 AlreadyExists is
treated as success), and returns without error. -/
theorem create_fn_idempotent (spec : CRSpec) (name ns : String) (c : Cluster) :
    (create_fn spec name ns c none none none).2 =
      .ok { svc_name := name ++ "-svc", sts_name := name ++ "-sts",
            cm_name := name ++ "-cm" } ∧
    (create_fn spec name ns c none none none).1.services =
      (match lookupObj c.services (name ++ "-svc") with
       | some _ => c.services
       | none => (name ++ "-svc",
           service_manifest (name ++ "-svc") ns [("app", name)]) :: c.services) ∧
    (create_fn spec name ns c none none none).1.configMaps =
      (match lookupObj c.configMaps (name ++ "-cm") with
       | some _ => c.configMaps
       | none => (name ++ "-cm",
           configmap_manifest (name ++ "-cm") ns (spec.replicas.getD 1)
             (spec.timer.getD 30) [("app", name)]) :: c.configMaps) ∧
    (create_fn spec name ns c none none none).1.statefulSets =
      (match lookupObj c.statefulSets (name ++ "-sts") with
       | some _ => c.statefulSets
       | none => (name ++ "-sts",
           statefulset_manifest (name ++ "-sts") (name ++ "-svc") (name ++ "-cm")
             ns [("app", name)] (spec.replicas.getD 1)
             (spec.image.getD "6y6en/ping-pong:latest")) :: c.statefulSets) ∧
    create_fn spec name ns (create_fn spec name ns c none none none).1
        none none none =
      create_fn spec name ns c none none none ∧
    (create_fn spec name ns emptyCluster none none none).1 =
      { services := [(name ++ "-svc",
          service_manifest (name ++ "-svc") ns [("app", name)])],
        configMaps := [(name ++ "-cm",
          configmap_manifest (name ++ "-cm") ns (spec.replicas.getD 1)
            (spec.timer.getD 30) [("app", name)])],
        statefulSets := [(name ++ "-sts",
          statefulset_manifest (name ++ "-sts") (name ++ "-svc") (name ++ "-cm")
            ns [("app", name)] (spec.replicas.getD 1)
            (spec.image.getD "6y6en/ping-pong:latest"))] } := by
  refine ⟨?_, ?_, ?_, ?_, ?_, ?_⟩
  · rw [create_fn_none_eq]
  · rw [create_fn_none_eq]
  · rw [create_fn_none_eq]
  · rw [create_fn_none_eq]
  · rw [create_fn_none_eq spec name ns c]
    rw [create_fn_none_eq]
    cases h1 : lookupObj c.services (name ++ "-svc") <;>
    cases h2 : lookupObj c.configMaps (name ++ "-cm") <;>
    cases h3 : lookupObj c.statefulSets (name ++ "-sts") <;>
    simp [h1, h2, h3, lookupObj_cons_self]
  · rw [create_fn_none_eq]
    simp [emptyCluster, lookupObj]

/-- C2: `create_fn` issues the create calls in the order Service, ConfigObject,
ReplicaSet.  A 409 AlreadyExists outcome at any step is treated as success and
processing continues to completion; any other error status `e` aborts the
remaining create steps (the later stores are untouched) and is propagated out
of the handler. -/
theorem create_fn_order_and_abort (spec : CRSpec) (name ns : String)
    (c : Cluster) (e : Nat) (he : e ≠ 409) (f g : Option Nat) :
    (create_fn spec name ns c (some 409) (some 409) (some 409)).2 =
      .ok { svc_name := name ++ "-svc", sts_name := name ++ "-sts",
            cm_name := name ++ "-cm" } ∧
    (create_fn spec name ns c (some 409) (some 409) (some 409)).1 = c ∧
    create_fn spec name ns c (some e) f g = (c, .error e) ∧
    (create_fn spec name ns c none (some e) g).2 = .error e ∧
    (create_fn spec name ns c none (some e) g).1.services =
      (create_fn spec name ns c none none none).1.services ∧
    (create_fn spec name ns c none (some e) g).1.configMaps = c.configMaps ∧
    (create_fn spec name ns c none (some e) g).1.statefulSets = c.statefulSets ∧
    (create_fn spec name ns c none none (some e)).2 = .error e ∧
    (create_fn spec name ns c none none (some e)).1.services =
      (create_fn spec name ns c none none none).1.services ∧
    (create_fn spec name ns c none none (some e)).1.configMaps =
      (create_fn spec name ns c none none none).1.configMaps ∧
    (create_fn spec name ns c none none (some e)).1.statefulSets =
      c.statefulSets := by
  refine ⟨?_, ?_, ?_, ?_, ?_, ?_, ?_, ?_, ?_, ?_, ?_⟩ <;>
  cases h1 : lookupObj c.services (name ++ "-svc") <;>
  cases h2 : lookupObj c.configMaps (name ++ "-cm") <;>
  cases h3 : lookupObj c.statefulSets (name ++ "-sts") <;>
  simp [create_fn, createStep_none, createStep_some, he, h1, h2, h3]

theorem lookupObj_setEntry_self (m : List (String × String)) (k v : String) :
    lookupObj (setEntry m k v) k = some v := by
  cases h : lookupObj m k with
  | none => simp [setEntry, h, lookupObj_cons_self]
  | some w => simp [setEntry, h, lookupObj_patchObj_self]

/-- C3: an Update event that changes `replicas` from 2 to 4 makes the
ReplicaSet's replica count 4 and rewrites the ConfigObject's data to a text
starting with "replicas: 4"; an Update event that changes only `image`
leaves the ReplicaSet's replica count and the ConfigObject's data unchanged. -/
theorem update_fn_propagates (name ns : String) (t r : Int) (img : Option String)
    (stsA : V1StatefulSet) (cmA : V1ConfigMap)
    (stsB : V1StatefulSet) (cmB : V1ConfigMap)
    (hA : stsA.spec.replicas = some 2)
    (hBr : stsB.spec.replicas = some r)
    (hBcm : cmB.data = [(CONFIG_KEY,
      "replicas: " ++ toString r ++ "\ntimer: " ++ toString t ++ "\n")]) :
    (lookupObj (update_fn { replicas := some 4, timer := some t, image := img }
        name ns { services := [], configMaps := [(name ++ "-cm", cmA)],
                  statefulSets := [(name ++ "-sts", stsA)] } none none).1.statefulSets
      (name ++ "-sts")).map (fun s => s.spec.replicas) = some (some 4) ∧
    (lookupObj (update_fn { replicas := some 4, timer := some t, image := img }
        name ns { services := [], configMaps := [(name ++ "-cm", cmA)],
                  statefulSets := [(name ++ "-sts", stsA)] } none none).1.configMaps
      (name ++ "-cm")).map (fun m => lookupObj m.data CONFIG_KEY) =
      some (some ("replicas: 4" ++ ("\ntimer: " ++ toString t ++ "\n"))) ∧
    (lookupObj (update_fn { replicas := some r, timer := some t, image := img }
        name ns { services := [], configMaps := [(name ++ "-cm", cmB)],
                  statefulSets := [(name ++ "-sts", stsB)] } none none).1.statefulSets
      (name ++ "-sts")).map (fun s => s.spec.replicas) = some stsB.spec.replicas ∧
    (lookupObj (update_fn { replicas := some r, timer := some t, image := img }
        name ns { services := [], configMaps := [(name ++ "-cm", cmB)],
                  statefulSets := [(name ++ "-sts", stsB)] } none none).1.configMaps
      (name ++ "-cm")).map V1ConfigMap.data = some cmB.data := by
  have hs : "replicas: " ++ pyShow (some 4) ++ "\ntimer: " ++ pyShow (some t) ++
      "\n" = "replicas: 4" ++ ("\ntimer: " ++ toString t ++ "\n") := by
    simp only [pyShow, String.append_assoc]
    rw [show (toString (4 : Int)) = "4" from rfl, ← String.append_assoc,
      show ("replicas: " ++ "4" : String) = "replicas: 4" from rfl]
  refine ⟨?_, ?_, ?_, ?_⟩
  · simp [update_fn, patchStep_none, lookupObj, patchObj, applyStsPatch]
  · simp [update_fn, patchStep_none, lookupObj, patchObj, applyCmPatch,
      lookupObj_setEntry_self, hs]
  · simp [update_fn, patchStep_none, lookupObj, patchObj, applyStsPatch, hBr]
  · simp only [update_fn, patchStep_none]
    simp [lookupObj, patchObj, applyCmPatch, hBcm, setEntry, pyShow]

/-- C4: in `update_fn` the StatefulSet patch and the ConfigMap patch are
attempted independently of each other's outcome — an injected failure of
one patch never changes the effect of the other — and every patch error is
recorded (logged) but never makes the handler raise. -/
theorem update_fn_isolated (spec : CRSpec) (name ns : String) (c : Cluster)
    (fsts fcm : Option Nat) (e1 e2 : Nat) :
    (update_fn spec name ns c fsts fcm).2.1 = .ok () ∧
    (update_fn spec name ns c fsts fcm).1.configMaps =
      (update_fn spec name ns c none fcm).1.configMaps ∧
    (update_fn spec name ns c fsts fcm).1.statefulSets =
      (update_fn spec name ns c fsts none).1.statefulSets ∧
    (update_fn spec name ns c fsts fcm).1.services = c.services ∧
    e1 ∈ (update_fn spec name ns c (some e1) fcm).2.2 ∧
    e2 ∈ (update_fn spec name ns c fsts (some e2)).2.2 := by
  refine ⟨rfl, rfl, rfl, rfl, ?_, ?_⟩
  · simp [update_fn, patchStep_some]
  · simp [update_fn, patchStep_some]

/-- C5: `delete_fn` attempts to delete all three dependent objects; a 404
NotFound outcome is treated as success, any other per-object error status is
recorded (logged) but not propagated, the handler always completes without
raising, and re-running delete when nothing is left changes nothing and
surfaces no error. -/
theorem delete_fn_idempotent_total (name ns : String) (c : Cluster)
    (f1 f2 f3 : Option Nat) (e : Nat) (he : e ≠ 404) :
    (delete_fn name ns c f1 f2 f3).2.1 = .ok () ∧
    lookupObj (delete_fn name ns c none none none).1.services
      (name ++ "-svc") = none ∧
    lookupObj (delete_fn name ns c none none none).1.statefulSets
      (name ++ "-sts") = none ∧
    lookupObj (delete_fn name ns c none none none).1.configMaps
      (name ++ "-cm") = none ∧
    (delete_fn name ns c none none none).2.2 = [] ∧
    delete_fn name ns (delete_fn name ns c none none none).1 none none none =
      ((delete_fn name ns c none none none).1, .ok (), []) ∧
    e ∈ (delete_fn name ns c (some e) f2 f3).2.2 ∧
    (delete_fn name ns c (some e) none none).1.statefulSets =
      removeObj c.statefulSets (name ++ "-sts") ∧
    (delete_fn name ns c (some e) none none).1.configMaps =
      removeObj c.configMaps (name ++ "-cm") := by
  refine ⟨rfl, ?_, ?_, ?_, ?_, ?_, ?_, ?_, ?_⟩
  · simp [delete_fn, deleteStep_none, lookupObj_removeObj_self]
  · simp [delete_fn, deleteStep_none, lookupObj_removeObj_self]
  · simp [delete_fn, deleteStep_none, lookupObj_removeObj_self]
  · simp [delete_fn, deleteStep_none]
  · simp [delete_fn, deleteStep_none, removeObj_removeObj]
  · simp [delete_fn, deleteStep_some, he]
  · simp [delete_fn, deleteStep_none, deleteStep_some]
  · simp [delete_fn, deleteStep_none, deleteStep_some]

/-- C6: `update_fn` applies no defaults: when the resource spec omits
`replicas`, `timer` and `image`, the ConfigObject's data is rewritten to the
literal text `"replicas: None\ntimer: None\n"` and the StatefulSet is patched
with a null (`none`) replica count and a null container image — in contrast to
`create_fn`, which defaults replicas to 1, timer to 30 and the image to
`"6y6en/ping-pong:latest"`. -/
theorem update_fn_no_defaults (name ns : String) (rep r0 t0 : Int) (img : String) :
    (lookupObj (update_fn { replicas := none, timer := none, image := none }
        name ns
        { services := [],
          configMaps := [(name ++ "-cm",
            configmap_manifest (name ++ "-cm") ns r0 t0 [("app", name)])],
          statefulSets := [(name ++ "-sts",
            statefulset_manifest (name ++ "-sts") (name ++ "-svc") (name ++ "-cm")
              ns [("app", name)] rep img)] } none none).1.configMaps
      (name ++ "-cm")).map V1ConfigMap.data =
      some [(CONFIG_KEY, "replicas: None\ntimer: None\n")] ∧
    (lookupObj (update_fn { replicas := none, timer := none, image := none }
        name ns
        { services := [],
          configMaps := [(name ++ "-cm",
            configmap_manifest (name ++ "-cm") ns r0 t0 [("app", name)])],
          statefulSets := [(name ++ "-sts",
            statefulset_manifest (name ++ "-sts") (name ++ "-svc") (name ++ "-cm")
              ns [("app", name)] rep img)] } none none).1.statefulSets
      (name ++ "-sts")).map (fun s => s.spec.replicas) = some none ∧
    (lookupObj (update_fn { replicas := none, timer := none, image := none }
        name ns
        { services := [],
          configMaps := [(name ++ "-cm",
            configmap_manifest (name ++ "-cm") ns r0 t0 [("app", name)])],
          statefulSets := [(name ++ "-sts",
            statefulset_manifest (name ++ "-sts") (name ++ "-svc") (name ++ "-cm")
              ns [("app", name)] rep img)] } none none).1.statefulSets
      (name ++ "-sts")).map
        (fun s => s.spec.template.spec.containers.map V1Container.image) =
      some [none] ∧
    (lookupObj (create_fn { replicas := none, timer := none, image := none }
        name ns emptyCluster none none none).1.configMaps
      (name ++ "-cm")).map V1ConfigMap.data =
      some [(CONFIG_KEY, "replicas: 1\ntimer: 30\n")] ∧
    (lookupObj (create_fn { replicas := none, timer := none, image := none }
        name ns emptyCluster none none none).1.statefulSets
      (name ++ "-sts")).map (fun s => s.spec.replicas) = some (some 1) ∧
    (lookupObj (create_fn { replicas := none, timer := none, image := none }
        name ns emptyCluster none none none).1.statefulSets
      (name ++ "-sts")).map
        (fun s => s.spec.template.spec.containers.map V1Container.image) =
      some [some "6y6en/ping-pong:latest"] := by
  refine ⟨?_, ?_, ?_, ?_, ?_, ?_⟩
  · simp [update_fn, patchStep_none, lookupObj, patchObj, applyCmPatch,
      configmap_manifest, setEntry, pyShow]
  · simp [update_fn, patchStep_none, lookupObj, patchObj, applyStsPatch]
  · simp [update_fn, patchStep_none, lookupObj, patchObj, applyStsPatch,
      statefulset_manifest]
  · rw [create_fn_none_eq]
    simp only [emptyCluster, lookupObj, Option.getD, if_pos, Option.map]
    rfl
  · rw [create_fn_none_eq]
    simp [emptyCluster, lookupObj, statefulset_manifest]
  · rw [create_fn_none_eq]
    simp [emptyCluster, lookupObj, statefulset_manifest]

/-- C7: the derived dependent-object names are exactly `name ++ "-svc"`,
`name ++ "-sts"` and `name ++ "-cm"`, independent of the namespace and of the
rest of the spec, and every handler recomputes the same names from the
resource name alone: `create_fn` returns them, and each handler only ever
touches the objects stored under them (any other key is left unchanged in
every store). -/
theorem derived_names_deterministic (spec : CRSpec) (name ns : String)
    (c : Cluster) (fsts fcm : Option Nat) (k : String)
    (hk1 : k ≠ name ++ "-svc") (hk2 : k ≠ name ++ "-sts")
    (hk3 : k ≠ name ++ "-cm") :
    (create_fn spec name ns c none none none).2 =
      .ok { svc_name := name ++ "-svc", sts_name := name ++ "-sts",
            cm_name := name ++ "-cm" } ∧
    lookupObj (create_fn spec name ns c none none none).1.services k =
      lookupObj c.services k ∧
    lookupObj (create_fn spec name ns c none none none).1.configMaps k =
      lookupObj c.configMaps k ∧
    lookupObj (create_fn spec name ns c none none none).1.statefulSets k =
      lookupObj c.statefulSets k ∧
    (update_fn spec name ns c fsts fcm).1.services = c.services ∧
    lookupObj (update_fn spec name ns c fsts fcm).1.statefulSets k =
      lookupObj c.statefulSets k ∧
    lookupObj (update_fn spec name ns c fsts fcm).1.configMaps k =
      lookupObj c.configMaps k ∧
    lookupObj (delete_fn name ns c none none none).1.services
      (name ++ "-svc") = none ∧
    lookupObj (delete_fn name ns c none none none).1.services k =
      lookupObj c.services k ∧
    lookupObj (delete_fn name ns c none none none).1.statefulSets k =
      lookupObj c.statefulSets k ∧
    lookupObj (delete_fn name ns c none none none).1.configMaps k =
      lookupObj c.configMaps k := by
  refine ⟨?_, ?_, ?_, ?_, rfl, ?_, ?_, ?_, ?_, ?_, ?_⟩
  · rw [create_fn_none_eq]
  · rw [create_fn_none_eq]
    cases h1 : lookupObj c.services (name ++ "-svc") <;>
    simp [h1, lookupObj_cons_ne _ _ _ _ hk1.symm]
  · rw [create_fn_none_eq]
    cases h2 : lookupObj c.configMaps (name ++ "-cm") <;>
    simp [h2, lookupObj_cons_ne _ _ _ _ hk3.symm]
  · rw [create_fn_none_eq]
    cases h3 : lookupObj c.statefulSets (name ++ "-sts") <;>
    simp [h3, lookupObj_cons_ne _ _ _ _ hk2.symm]
  · cases fsts with
    | some e => simp [update_fn, patchStep_some]
    | none =>
      cases h : lookupObj c.statefulSets (name ++ "-sts") <;>
      simp [update_fn, patchStep_none, h, lookupObj_patchObj_ne _ _ _ _ hk2]
  · cases fcm with
    | some e => simp [update_fn, patchStep_some]
    | none =>
      cases h : lookupObj c.configMaps (name ++ "-cm") <;>
      simp [update_fn, patchStep_none, h, lookupObj_patchObj_ne _ _ _ _ hk3]
  · simp [delete_fn, deleteStep_none, lookupObj_removeObj_self]
  · simp [delete_fn, deleteStep_none, lookupObj_removeObj_ne _ _ _ hk1]
  · simp [delete_fn, deleteStep_none, lookupObj_removeObj_ne _ _ _ hk2]
  · simp [delete_fn, deleteStep_none, lookupObj_removeObj_ne _ _ _ hk3]

/-- C8: the ConfigObject holds the single key `config.yaml` whose value is
exactly `"replicas: <n>\ntimer: <n>\n"`; on create a missing `replicas`
defaults to 1 and a missing `timer` defaults to 30. -/
theorem configmap_single_key_data (spec : CRSpec) (nm ns2 : String)
    (r t : Int) (labels : Labels) (name : String) :
    (configmap_manifest nm ns2 r t labels).data =
      [(CONFIG_KEY,
        "replicas: " ++ toString r ++ "\ntimer: " ++ toString t ++ "\n")] ∧
    (lookupObj (create_fn spec name ns2 emptyCluster none none none).1.configMaps
      (name ++ "-cm")).map V1ConfigMap.data =
      some [(CONFIG_KEY, "replicas: " ++ toString (spec.replicas.getD 1) ++
        "\ntimer: " ++ toString (spec.timer.getD 30) ++ "\n")] := by
  refine ⟨rfl, ?_⟩
  rw [create_fn_none_eq]
  simp [emptyCluster, lookupObj, configmap_manifest]

/-- C9: the single label set `{app: name}` is applied identically to the
headless Service's selector, the StatefulSet's selector, the StatefulSet's
pod template labels, and the metadata labels of all three dependent objects;
in particular the StatefulSet's selector labels exactly match its pod
template labels. -/
theorem labels_uniform (spec : CRSpec) (name ns : String) :
    (lookupObj (create_fn spec name ns emptyCluster none none none).1.services
      (name ++ "-svc")).map (fun s => s.spec.selector) = some [("app", name)] ∧
    (lookupObj (create_fn spec name ns emptyCluster none none none).1.services
      (name ++ "-svc")).map (fun s => s.metadata.labels) = some [("app", name)] ∧
    (lookupObj (create_fn spec name ns emptyCluster none none none).1.statefulSets
      (name ++ "-sts")).map (fun s => s.spec.selector.match_labels) =
      some [("app", name)] ∧
    (lookupObj (create_fn spec name ns emptyCluster none none none).1.statefulSets
      (name ++ "-sts")).map (fun s => s.spec.template.metadata.labels) =
      some [("app", name)] ∧
    (lookupObj (create_fn spec name ns emptyCluster none none none).1.statefulSets
      (name ++ "-sts")).map (fun s => s.metadata.labels) = some [("app", name)] ∧
    (lookupObj (create_fn spec name ns emptyCluster none none none).1.configMaps
      (name ++ "-cm")).map (fun m => m.metadata.labels) = some [("app", name)] ∧
    (lookupObj (create_fn spec name ns emptyCluster none none none).1.statefulSets
      (name ++ "-sts")).map
        (fun s => s.spec.selector.match_labels = s.spec.template.metadata.labels) =
      some True := by
  refine ⟨?_, ?_, ?_, ?_, ?_, ?_, ?_⟩ <;>
  · rw [create_fn_none_eq]
    simp [emptyCluster, lookupObj, service_manifest, statefulset_manifest,
      configmap_manifest]

/-- C10: the set of peer ordinals one pass of the workload's ping loop targets
is exactly the ordinals below the configured replica count other than the
pod's own ordinal; for replicas = 3 and own ordinal 1 that is exactly
{0, 2}, and the own ordinal is always excluded. -/
theorem ping_loop_peer_set (replicas : Int) (p i : Nat) :
    (i ∈ pingTargets replicas p ↔ ((i : Int) < replicas ∧ i ≠ p)) ∧
    p ∉ pingTargets replicas p ∧
    pingTargets 3 1 = [0, 2] := by
  refine ⟨?_, ?_, ?_⟩
  · simp [pingTargets, List.mem_filter, List.mem_range, Int.lt_toNat]
  · simp [pingTargets, List.mem_filter]
  · rfl

/-- Witness for C2 at a concrete input: a 500 error on the Service create
aborts the whole handler with that error and creates nothing. -/
theorem create_fn_order_and_abort_witness :
    create_fn { replicas := some 2, timer := some 5, image := some "img" }
      "foo" "ns" emptyCluster (some 500) none none = (emptyCluster, .error 500) :=
  (create_fn_order_and_abort
    { replicas := some 2, timer := some 5, image := some "img" }
    "foo" "ns" emptyCluster 500 (by decide) none none).2.2.1

/-- Witness for C3 at a concrete input: updating replicas from 2 to 4 sets the
stored StatefulSet's replica count to 4. -/
theorem update_fn_propagates_witness :
    (lookupObj (update_fn
        { replicas := some 4, timer := some 7, image := some "img2" } "foo" "n"
        { services := [],
          configMaps := [("foo" ++ "-cm",
            configmap_manifest ("foo" ++ "-cm") "n" 2 7 [("app", "foo")])],
          statefulSets := [("foo" ++ "-sts",
            statefulset_manifest ("foo" ++ "-sts") ("foo" ++ "-svc")
              ("foo" ++ "-cm") "n" [("app", "foo")] 2 "img")] }
        none none).1.statefulSets
      ("foo" ++ "-sts")).map (fun s => s.spec.replicas) = some (some 4) :=
  (update_fn_propagates "foo" "n" 7 2 (some "img2")
    (statefulset_manifest ("foo" ++ "-sts") ("foo" ++ "-svc") ("foo" ++ "-cm")
      "n" [("app", "foo")] 2 "img")
    (configmap_manifest ("foo" ++ "-cm") "n" 2 7 [("app", "foo")])
    (statefulset_manifest ("foo" ++ "-sts") ("foo" ++ "-svc") ("foo" ++ "-cm")
      "n" [("app", "foo")] 2 "img")
    (configmap_manifest ("foo" ++ "-cm") "n" 2 7 [("app", "foo")])
    rfl rfl rfl).1

/-- Witness for C5 at a concrete input: a 500 error on the Service delete is
recorded in the logged-error list. -/
theorem delete_fn_idempotent_total_witness :
    500 ∈ (delete_fn "foo" "n" emptyCluster (some 500) none none).2.2 :=
  (delete_fn_idempotent_total "foo" "n" emptyCluster none none none 500
    (by decide)).2.2.2.2.2.2.1

/-- Witness for C7 at a concrete input: `create_fn` returns exactly the
derived names for resource name "foo". -/
theorem derived_names_deterministic_witness :
    (create_fn { replicas := some 2, timer := some 5, image := some "img" }
      "foo" "n" emptyCluster none none none).2 =
      .ok { svc_name := "foo" ++ "-svc", sts_name := "foo" ++ "-sts",
            cm_name := "foo" ++ "-cm" } :=
  (derived_names_deterministic
    { replicas := some 2, timer := some 5, image := some "img" }
    "foo" "n" emptyCluster none none "bar"
    (by decide) (by decide) (by decide)).1

/-- Witness for C10 at a concrete input: with replicas = 3, ordinal 1's peer
set is exactly {0, 2}. -/
theorem ping_loop_peer_set_witness :
    ((0 : Nat) ∈ pingTargets 3 1 ↔ (((0 : Nat) : Int) < 3 ∧ (0 : Nat) ≠ 1)) ∧
    (1 : Nat) ∉ pingTargets 3 1 ∧
    pingTargets 3 1 = [0, 2] :=
  ping_loop_peer_set 3 1 0
